import Mathlib

/-!
Verification of the core of the pika rsync snapshot server
(`src/rsync_server.cc`) and of the lists compaction filters, as a shallow
embedding in Lean.

File-system access is modelled by an oracle (`SnapFile`): `pread` at an
offset with a requested byte count either delivers some number of bytes
(`PreadRes.ok n`, with `n = 0` meaning end of file, as in POSIX) or fails
(`PreadRes.err`, the C `-1` return).  The oracle carries the POSIX contract
that a successful read never delivers more bytes than requested.  Machine
`size_t` arithmetic is `Nat` with explicit reduction modulo `2 ^ 64`.
Loops of the C source are embedded as fuel-indexed recursive functions; a
distinguished `fuelExit` outcome marks fuel exhaustion, and sufficiency of
fuel is proved where a claim needs it.
-/

/-- `2 ^ 64`, the modulus of `size_t` arithmetic. -/
def U64 : Nat := 18446744073709551616

/-- Wrapping 64-bit unsigned subtraction, the semantics of
`size_t -= size_t` in the C source. -/
def usub64 (a b : Nat) : Nat := (a + (U64 - b % U64)) % U64

/-- Result of one `pread`/`read` call: `ok n` delivers `n` bytes
(`n = 0` is end of file), `err` is the `-1` return. -/
inductive PreadRes
  | ok (n : Nat)
  | err
  deriving DecidableEq

/-- Oracle for one snapshot file: whether `open` succeeds, and the result of
a positioned read of `cnt` bytes at offset `off`.  `pread_le` is the POSIX
guarantee that a read never returns more bytes than requested. -/
structure SnapFile where
  openOk : Bool
  pread : Nat → Nat → PreadRes
  pread_le : ∀ off cnt n, pread off cnt = PreadRes.ok n → n ≤ cnt

/-- `const int kMaxCopyBlockSize = 1 << 20` from `ReadDumpFile`. -/
def kMaxCopyBlockSize : Nat := 1 <<< 20

/-- The mutable locals of the inner read loop of `ReadDumpFile`:
`*bytes_read`, `read_count`, `read_offset`, `left_read_count`. -/
structure LoopSt where
  bytesRead : Nat
  readCount : Nat
  readOffset : Nat
  leftRead : Nat
  deriving DecidableEq

/-- How the inner read loop of `ReadDumpFile` terminated:
`eofExit` is `pread` returning `0`, `errExit` is `pread` returning `-1`,
`brkExit` is the `break` guarded by `left_read_count < 0`, and `fuelExit`
is exhaustion of the fuel of the embedding. -/
inductive LoopExit
  | eofExit
  | errExit
  | brkExit
  | fuelExit
  deriving DecidableEq

/-- The inner read loop of `ReadDumpFile` (`rsync_server.cc:41-53`):
```
while ((bytesin = pread(fd, data, read_count, read_offset)) > 0) {
  left_read_count -= bytesin;
  if (left_read_count < 0) { break; }
  if (read_count > left_read_count) { read_count = left_read_count; }
  data += bytesin; *bytes_read += bytesin; read_offset += bytesin;
}
```
`left_read_count` is a `size_t`, so the subtraction wraps (`usub64`) and the
`< 0` comparison is over unsigned values. -/
def readLoop (f : SnapFile) (fuel : Nat) (st : LoopSt) : LoopExit × LoopSt :=
  match fuel with
  | 0 => (LoopExit.fuelExit, st)
  | Nat.succ fuel2 =>
    match f.pread st.readOffset st.readCount with
    | PreadRes.err => (LoopExit.errExit, st)
    | PreadRes.ok 0 => (LoopExit.eofExit, st)
    | PreadRes.ok (Nat.succ n) =>
      let left2 := usub64 st.leftRead (n + 1)
      if left2 < 0 then (LoopExit.brkExit, { st with leftRead := left2 })
      else
        readLoop f fuel2 {
          bytesRead := (st.bytesRead + (n + 1)) % U64
          readCount := if st.readCount > left2 then left2 else st.readCount
          readOffset := (st.readOffset + (n + 1)) % U64
          leftRead := left2 }

/-- Outcome of the checksum pass of `ReadDumpFile`
(`rsync_server.cc:60-74`): `done c` means the pass consumed `c` bytes and
fed them to the MD5 digest, `errExit` is a failing `read`. -/
inductive CsExit
  | done (consumed : Nat)
  | errExit
  | fuelExit
  deriving DecidableEq

/-- The checksum pass of `ReadDumpFile`: sequential `read` calls of
`kMaxCopyBlockSize` bytes from the current file position (which is still `0`,
since `pread` does not move it), feeding an MD5 digest, until `read`
returns `0` or `-1`. -/
def checksumLoop (f : SnapFile) (fuel : Nat) (pos acc : Nat) : CsExit :=
  match fuel with
  | 0 => CsExit.fuelExit
  | Nat.succ fuel2 =>
    match f.pread pos kMaxCopyBlockSize with
    | PreadRes.err => CsExit.errExit
    | PreadRes.ok 0 => CsExit.done acc
    | PreadRes.ok (Nat.succ n) => checksumLoop f fuel2 (pos + (n + 1)) (acc + (n + 1))

/-- Status returned by `ReadDumpFile`: `ok` or `IOError`; `fuelOut` marks
fuel exhaustion of the embedding, reachable only with insufficient fuel. -/
inductive RStatus
  | ok
  | ioError
  | fuelOut
  deriving DecidableEq

/-- The observable outcome of one `ReadDumpFile` call: its `Status` return
value together with the final values of the out-parameters `*bytes_read`
and `*checksum` (both initialized by the caller to `0` and `""`). -/
structure RDFOut where
  status : RStatus
  bytesRead : Nat
  checksum : String
  deriving DecidableEq

/-- `ReadDumpFile(filepath, offset, count, data, bytes_read, checksum)`
(`rsync_server.cc:24-76`), for the file behind `filepath` modelled by the
oracle `f`.  `digest n` stands for the hex MD5 digest of the first `n`
bytes of the file (the digest itself is external library code, `pstd::MD5`);
the checksum pass reports how many bytes it digested. -/
def ReadDumpFile (f : SnapFile) (digest : Nat → String) (fuel offset count : Nat) : RDFOut :=
  if f.openOk = false then
    { status := RStatus.ioError, bytesRead := 0, checksum := "" }
  else
    let rc0 := if count > kMaxCopyBlockSize then kMaxCopyBlockSize else count
    let r := readLoop f fuel { bytesRead := 0, readCount := rc0, readOffset := offset, leftRead := count }
    match r.1 with
    | LoopExit.errExit => { status := RStatus.ioError, bytesRead := r.2.bytesRead, checksum := "" }
    | LoopExit.brkExit => { status := RStatus.ok, bytesRead := r.2.bytesRead, checksum := "" }
    | LoopExit.fuelExit => { status := RStatus.fuelOut, bytesRead := r.2.bytesRead, checksum := "" }
    | LoopExit.eofExit =>
      match checksumLoop f fuel 0 0 with
      | CsExit.errExit => { status := RStatus.ioError, bytesRead := r.2.bytesRead, checksum := "" }
      | CsExit.fuelExit => { status := RStatus.fuelOut, bytesRead := r.2.bytesRead, checksum := "" }
      | CsExit.done consumed => { status := RStatus.ok, bytesRead := r.2.bytesRead, checksum := digest consumed }

/-- Oracle of a regular file of `size` bytes with no I/O errors: a
positioned read delivers `min cnt (size - off)` bytes. -/
def regFile (size : Nat) : SnapFile where
  openOk := true
  pread := fun off cnt => PreadRes.ok (min cnt (size - off))
  pread_le := by
    intro off cnt n h
    simp only [PreadRes.ok.injEq] at h
    omega

/-- Oracle of a file whose reads succeed below byte offset `failOff`
(possibly short) and fail at or beyond it. -/
def failFile (failOff : Nat) : SnapFile where
  openOk := true
  pread := fun off cnt =>
    if failOff ≤ off then PreadRes.err else PreadRes.ok (min cnt (failOff - off))
  pread_le := by
    intro off cnt n h
    by_cases hc : failOff ≤ off
    · simp [hc] at h
    · simp only [hc, if_false] at h
      simp only [PreadRes.ok.injEq] at h
      omega

/-- Oracle of a file whose `open` fails. -/
def badOpenFile : SnapFile where
  openOk := false
  pread := fun _ _ => PreadRes.err
  pread_le := by intro off cnt n h; exact PreadRes.noConfusion h

/-- Stand-in for the hex MD5 digest of the first `n` bytes of the file.
Modelled from the spec: `pstd::MD5` is external library code, not part of
this repository's sources; only the facts that a hex digest is a non-empty
string and is a function of the digested byte range are relied on. -/
def md5hex (n : Nat) : String := "md5:" ++ toString n

/-- Response code of the rsync protocol (`RsyncService::kOk`, `kErr`). -/
inductive RCode
  | ok
  | err
  deriving DecidableEq

/-- Request/response type tag (`RsyncService::kRsyncMeta`, `kRsyncFile`). -/
inductive RType
  | meta
  | file
  deriving DecidableEq

/-- The `FileResponse` sub-message of an `RsyncResponse`; `dataLen` is the
length of the `data` field (`set_data(buffer, bytes_read)`). -/
structure FileResp where
  filename : String
  offset : Nat
  count : Nat
  dataLen : Nat
  eofFlag : Bool
  checksum : String
  deriving DecidableEq

/-- One `RsyncService::RsyncResponse` frame as written on the connection. -/
structure RsyncResponse where
  code : RCode
  rtype : RType
  dbName : String
  slotId : Nat
  snapshotUuid : String
  metaResp : Option (List String)
  fileResp : Option FileResp
  deriving DecidableEq

/-- External collaborators consulted by `HandleMetaRsyncRequest`: the
partition registry (`GetDBSlotById`, `IsBgSaving`) and the background-save
coordinator (`GetDumpMeta`). -/
structure MetaEnv where
  slotExists : Bool
  isBgSaving : Bool
  filenames : List String
  snapshotUuid : String

/-- `RsyncServerConn::HandleMetaRsyncRequest` (`rsync_server.cc:156-190`),
returning the list of response frames written on the connection:
```
if (!slot || slot->IsBgSaving()) { LOG(WARNING) << "waiting bgsave done..."; return; }
```
so both an absent partition and an active bgsave write no frame at all;
otherwise a single `kOk` frame carrying the dump file list and uuid. -/
def HandleMetaRsyncRequest (env : MetaEnv) (dbName : String) (slotId : Nat) : List RsyncResponse :=
  if !env.slotExists || env.isBgSaving then []
  else
    [{ code := RCode.ok, rtype := RType.meta, dbName := dbName, slotId := slotId,
       snapshotUuid := env.snapshotUuid, metaResp := some env.filenames, fileResp := none }]

/-- External collaborators consulted by `HandleFileRsyncRequest`:
`GetDumpUUID` (whether it returned ok, and the uuid it wrote), the
partition registry, and the dump file named by the request. -/
structure FileEnv where
  getDumpUUIDOk : Bool
  snapshotUuid : String
  slotExists : Bool
  dumpFile : SnapFile

/-- Outcome of one `HandleFileRsyncRequest` execution: the frames written,
or `nullDeref` when control reaches `slot->bgsave_info()` with a null
`slot` (undefined behavior in the C source), carrying the frames written
before that point. -/
inductive HandlerResult
  | wrote (rs : List RsyncResponse)
  | nullDeref (written : List RsyncResponse)
  | fuelOut (written : List RsyncResponse)
  deriving DecidableEq

/-- `RsyncServerConn::HandleFileRsyncRequest` (`rsync_server.cc:192-249`).
Note the `!slot` branch (lines 220-225) writes a `kErr` frame but has no
`return`, so execution falls through to `slot->bgsave_info()` on a null
pointer; this is modelled as `HandlerResult.nullDeref`. -/
def HandleFileRsyncRequest (env : FileEnv) (digest : Nat → String) (fuel : Nat)
    (dbName : String) (slotId : Nat) (filename : String) (offset count : Nat) : HandlerResult :=
  let base : RsyncResponse :=
    { code := RCode.ok, rtype := RType.file, dbName := dbName,
      slotId := slotId, snapshotUuid := env.snapshotUuid, metaResp := none, fileResp := none }
  if env.getDumpUUIDOk = false then
    HandlerResult.wrote [{ base with code := RCode.err }]
  else if env.slotExists = false then
    HandlerResult.nullDeref [{ base with code := RCode.err }]
  else
    let r := ReadDumpFile env.dumpFile digest fuel offset count
    match r.status with
    | RStatus.ioError => HandlerResult.wrote [{ base with code := RCode.err }]
    | RStatus.fuelOut => HandlerResult.fuelOut [base]
    | RStatus.ok =>
      HandlerResult.wrote [{ base with fileResp := some {
        filename := filename, offset := offset, count := r.bytesRead,
        dataLen := r.bytesRead, eofFlag := r.bytesRead != count, checksum := r.checksum } }]

/-- The `type()` of a parsed `RsyncRequest`; protobuf enums admit values
other than the two known tags, handled by the `default` branch. -/
inductive ReqType
  | rsyncMeta
  | rsyncFile
  | other (tag : Nat)
  deriving DecidableEq

/-- A task enqueued on the worker pool by `DealMessage`. -/
inductive RTask
  | metaTask
  | fileTask
  deriving DecidableEq

/-- `RsyncServerConn::DealMessage` (`rsync_server.cc:129-154`): its `int`
return value (`-1` on protobuf parse failure, which closes the connection;
`0` otherwise) and the tasks scheduled on the worker pool.  The `default`
branch of the switch only logs. -/
def DealMessage (parseOk : Bool) (t : ReqType) : Int × List RTask :=
  if parseOk = false then (-1, [])
  else
    match t with
    | ReqType.rsyncMeta => (0, [RTask.metaTask])
    | ReqType.rsyncFile => (0, [RTask.fileTask])
    | ReqType.other _ => (0, [])

/-- A parsed lists meta record value: element count, generation and
absolute expiry (`0` = no expiry).  Layout per the spec, §3.1. -/
structure ListsMetaValue where
  size : Nat
  version : Int
  ttl : Int
  deriving DecidableEq

/-- Modelled from the spec: `ListsMetaValue::UpdateVersion` (the
`src/lists_meta_value_format.h` implementation is not among the provided
sources; only its test is).  Sets the version to
`max(old_version + 1, current_unix_seconds)`. -/
def UpdateVersion (now : Int) (m : ListsMetaValue) : ListsMetaValue :=
  { m with version := max (m.version + 1) now }

/-- Modelled from the spec: `ListsMetaValue::SetRelativeTimestamp` stores
`now + seconds` into the ttl field. -/
def SetRelativeTimestamp (now seconds : Int) (m : ListsMetaValue) : ListsMetaValue :=
  { m with ttl := now + seconds }

/-- Modelled from the spec: `storage::ListsMetaFilter::Filter`
(`src/lists_filter.h` is not among the provided sources; only its test is).
Returns `true` (drop) iff the list is empty (`size == 0`) or it has an
absolute expiry in the past (`ttl != 0 && ttl < now`); it consults nothing
but the record value and the clock. -/
def ListsMetaFilter (now : Int) (m : ListsMetaValue) : Bool :=
  if m.size = 0 then true
  else if m.ttl ≠ 0 ∧ m.ttl < now then true
  else false

/-- A parsed lists data record key: `(user_key, version, index)`. -/
structure ListsDataKey where
  userKey : String
  version : Int
  index : Nat
  deriving DecidableEq

/-- Modelled from the spec: `storage::ListsDataFilter::Filter`
(`src/lists_filter.h` is not among the provided sources; only its test is).
`metaLookup` is the meta column family's answer for the data key's user
key (the single-entry cache of the C implementation is transparent to the
decision).  Drops iff the meta record is absent, or the meta has expired
(`ttl != 0 && ttl < now`), or the data key's version is older than the
meta's; an equal version is kept. -/
def ListsDataFilter (now : Int) (metaLookup : Option ListsMetaValue) (k : ListsDataKey) : Bool :=
  match metaLookup with
  | none => true
  | some m =>
    if m.ttl ≠ 0 ∧ m.ttl < now then true
    else decide (k.version < m.version)

/-! ### Helper lemmas about the read loop -/

/-- On 64-bit values with no underflow, the wrapping subtraction is exact. -/
theorem usub64_eq (a b : Nat) (hb : b ≤ a) (ha : a < U64) : usub64 a b = a - b := by
  unfold usub64 U64 at *
  omega

theorem readLoop_zero (f : SnapFile) (st : LoopSt) : readLoop f 0 st = (LoopExit.fuelExit, st) := rfl

theorem readLoop_err (f : SnapFile) (fuel : Nat) (st : LoopSt)
    (h : f.pread st.readOffset st.readCount = PreadRes.err) :
    readLoop f (fuel + 1) st = (LoopExit.errExit, st) := by
  unfold readLoop
  rw [h]

theorem readLoop_eofStep (f : SnapFile) (fuel : Nat) (st : LoopSt)
    (h : f.pread st.readOffset st.readCount = PreadRes.ok 0) :
    readLoop f (fuel + 1) st = (LoopExit.eofExit, st) := by
  unfold readLoop
  rw [h]

/-- One productive iteration of the read loop: the `left_read_count < 0`
break is not taken (the value is unsigned), so the loop advances. -/
theorem readLoop_step (f : SnapFile) (fuel : Nat) (st : LoopSt) (n : Nat)
    (h : f.pread st.readOffset st.readCount = PreadRes.ok (n + 1)) :
    readLoop f (fuel + 1) st =
      readLoop f fuel {
        bytesRead := (st.bytesRead + (n + 1)) % U64
        readCount := if st.readCount > usub64 st.leftRead (n + 1) then usub64 st.leftRead (n + 1)
                     else st.readCount
        readOffset := (st.readOffset + (n + 1)) % U64
        leftRead := usub64 st.leftRead (n + 1) } := by
  conv_lhs => unfold readLoop
  rw [h]
  simp only [Nat.not_lt_zero, if_false]

theorem checksumLoop_err (f : SnapFile) (fuel pos acc : Nat)
    (h : f.pread pos kMaxCopyBlockSize = PreadRes.err) :
    checksumLoop f (fuel + 1) pos acc = CsExit.errExit := by
  unfold checksumLoop
  rw [h]

theorem checksumLoop_eofStep (f : SnapFile) (fuel pos acc : Nat)
    (h : f.pread pos kMaxCopyBlockSize = PreadRes.ok 0) :
    checksumLoop f (fuel + 1) pos acc = CsExit.done acc := by
  unfold checksumLoop
  rw [h]

theorem checksumLoop_step (f : SnapFile) (fuel pos acc m : Nat)
    (h : f.pread pos kMaxCopyBlockSize = PreadRes.ok (m + 1)) :
    checksumLoop f (fuel + 1) pos acc = checksumLoop f fuel (pos + (m + 1)) (acc + (m + 1)) := by
  conv_lhs => unfold checksumLoop
  rw [h]

theorem kMax_eq : kMaxCopyBlockSize = 1048576 := rfl

/-- The `break` guarded by `left_read_count < 0` is unreachable: the
comparison is over an unsigned value, so it is false on every iteration,
for every file oracle, fuel and starting state. -/
theorem readLoop_ne_brk (f : SnapFile) : ∀ (fuel : Nat) (st : LoopSt),
    (readLoop f fuel st).1 ≠ LoopExit.brkExit := by
  intro fuel
  induction fuel with
  | zero => intro st; simp [readLoop_zero]
  | succ n ih =>
    intro st
    cases h : f.pread st.readOffset st.readCount with
    | err => rw [readLoop_err f n st h]; simp
    | ok k =>
      cases k with
      | zero => rw [readLoop_eofStep f n st h]; simp
      | succ m => rw [readLoop_step f n st m h]; exact ih _

/-- The loop invariant `read_count ≤ left_read_count` holds initially and is
preserved, so `*bytes_read` never exceeds its initial value plus
`left_read_count`: the loop delivers at most `count` bytes in total. -/
theorem readLoop_bytes_le (f : SnapFile) : ∀ (fuel : Nat) (st : LoopSt),
    st.readCount ≤ st.leftRead →
    st.bytesRead + st.leftRead < U64 →
    (readLoop f fuel st).2.bytesRead ≤ st.bytesRead + st.leftRead := by
  intro fuel
  induction fuel with
  | zero =>
    intro st h1 h2
    rw [readLoop_zero]
    show st.bytesRead ≤ st.bytesRead + st.leftRead
    omega
  | succ n ih =>
    intro st h1 h2
    cases h : f.pread st.readOffset st.readCount with
    | err =>
      rw [readLoop_err f n st h]
      show st.bytesRead ≤ st.bytesRead + st.leftRead
      omega
    | ok k =>
      cases k with
      | zero =>
        rw [readLoop_eofStep f n st h]
        show st.bytesRead ≤ st.bytesRead + st.leftRead
        omega
      | succ m =>
        have hle : m + 1 ≤ st.readCount := f.pread_le _ _ _ h
        have hleft : m + 1 ≤ st.leftRead := le_trans hle h1
        have hu : usub64 st.leftRead (m + 1) = st.leftRead - (m + 1) :=
          usub64_eq _ _ hleft (by omega)
        have hb : (st.bytesRead + (m + 1)) % U64 = st.bytesRead + (m + 1) :=
          Nat.mod_eq_of_lt (by omega)
        rw [readLoop_step f n st m h, hu, hb]
        refine le_trans (ih _ ?_ ?_) ?_
        · simp only
          split <;> omega
        · simp only
          omega
        · simp only
          omega

/-- On a regular file the checksum pass consumes exactly the bytes from the
current position to the end of the file. -/
theorem checksumLoop_regFile (sz : Nat) : ∀ (fuel pos acc : Nat),
    sz - pos + 1 ≤ fuel →
    checksumLoop (regFile sz) fuel pos acc = CsExit.done (acc + (sz - pos)) := by
  intro fuel
  induction fuel with
  | zero => intro pos acc h; omega
  | succ n ih =>
    intro pos acc h
    have hpread : (regFile sz).pread pos kMaxCopyBlockSize
        = PreadRes.ok (min kMaxCopyBlockSize (sz - pos)) := rfl
    rcases hm : min kMaxCopyBlockSize (sz - pos) with _ | m
    · rw [hm] at hpread
      rw [checksumLoop_eofStep _ n _ _ hpread]
      have hk := kMax_eq
      congr 1
      omega
    · rw [hm] at hpread
      rw [checksumLoop_step _ n _ _ m hpread]
      have hk := kMax_eq
      rw [ih (pos + (m + 1)) (acc + (m + 1)) (by omega)]
      congr 1
      omega

/-- Closed form of the read loop on a regular file: with the invariant
`read_count = min(1 MiB, left_read_count)` the loop always terminates via
`pread` returning `0` (`eofExit`) and delivers
`min left_read_count (size - read_offset)` further bytes. -/
theorem readLoop_regFile (sz : Nat) : ∀ (fuel : Nat) (st : LoopSt),
    st.readCount = min kMaxCopyBlockSize st.leftRead →
    st.bytesRead + st.leftRead < U64 →
    st.readOffset + st.leftRead < U64 →
    st.leftRead + 1 ≤ fuel →
    (readLoop (regFile sz) fuel st).1 = LoopExit.eofExit ∧
    (readLoop (regFile sz) fuel st).2.bytesRead =
      st.bytesRead + min st.leftRead (sz - st.readOffset) := by
  intro fuel
  induction fuel with
  | zero => intro st h1 h2 h3 h4; omega
  | succ n ih =>
    intro st h1 h2 h3 h4
    have hk := kMax_eq
    have hpread : (regFile sz).pread st.readOffset st.readCount
        = PreadRes.ok (min st.readCount (sz - st.readOffset)) := rfl
    rcases hm : min st.readCount (sz - st.readOffset) with _ | m
    · rw [hm] at hpread
      rw [readLoop_eofStep _ n st hpread]
      refine ⟨rfl, ?_⟩
      show st.bytesRead = st.bytesRead + min st.leftRead (sz - st.readOffset)
      omega
    · rw [hm] at hpread
      have hle1 : m + 1 ≤ st.readCount := by omega
      have hle2 : m + 1 ≤ sz - st.readOffset := by omega
      have hleft : m + 1 ≤ st.leftRead := by omega
      have hu : usub64 st.leftRead (m + 1) = st.leftRead - (m + 1) :=
        usub64_eq _ _ hleft (by omega)
      have hb : (st.bytesRead + (m + 1)) % U64 = st.bytesRead + (m + 1) :=
        Nat.mod_eq_of_lt (by omega)
      have ho : (st.readOffset + (m + 1)) % U64 = st.readOffset + (m + 1) :=
        Nat.mod_eq_of_lt (by omega)
      rw [readLoop_step _ n st m hpread, hu, hb, ho]
      obtain ⟨ihA, ihB⟩ := ih
        { bytesRead := st.bytesRead + (m + 1)
          readCount := if st.readCount > st.leftRead - (m + 1) then st.leftRead - (m + 1)
                       else st.readCount
          readOffset := st.readOffset + (m + 1)
          leftRead := st.leftRead - (m + 1) }
        (by simp only; split <;> omega)
        (by simp only; omega)
        (by simp only; omega)
        (by simp only; omega)
      refine ⟨ihA, ?_⟩
      rw [ihB]
      simp only
      omega

/-- Closed form of `ReadDumpFile` on a regular file of `sz` bytes: success,
`min count (sz - offset)` bytes delivered, and the checksum of the whole
file computed on every such call. -/
theorem ReadDumpFile_regFile (sz : Nat) (digest : Nat → String) (fuel off cnt : Nat)
    (h1 : cnt < U64) (h2 : off + cnt < U64) (h3 : cnt + 1 ≤ fuel) (h4 : sz + 1 ≤ fuel) :
    ReadDumpFile (regFile sz) digest fuel off cnt =
      { status := RStatus.ok, bytesRead := min cnt (sz - off), checksum := digest sz } := by
  have hk := kMax_eq
  have hrc : (if cnt > kMaxCopyBlockSize then kMaxCopyBlockSize else cnt)
      = min kMaxCopyBlockSize cnt := by split <;> omega
  have hloop := readLoop_regFile sz fuel
    { bytesRead := 0, readCount := if cnt > kMaxCopyBlockSize then kMaxCopyBlockSize else cnt,
      readOffset := off, leftRead := cnt }
    (by simp only; omega) (by simp only; omega) (by simp only; omega) (by simp only; omega)
  obtain ⟨hA, hB⟩ := hloop
  have hcs : checksumLoop (regFile sz) fuel 0 0 = CsExit.done sz := by
    have hcs0 := checksumLoop_regFile sz fuel 0 0 (by omega)
    simpa using hcs0
  unfold ReadDumpFile
  rcases hr : readLoop (regFile sz) fuel
      { bytesRead := 0, readCount := if cnt > kMaxCopyBlockSize then kMaxCopyBlockSize else cnt,
        readOffset := off, leftRead := cnt } with ⟨ex, stf⟩
  rw [hr] at hA hB
  simp only at hA hB
  subst hA
  have hbytes : stf.bytesRead = min cnt (sz - off) := by rw [hB]; omega
  rw [if_neg (show ¬((regFile sz).openOk = false) by simp [regFile])]
  simp only [hr, hcs, hbytes]

/-- For every file oracle, `ReadDumpFile` delivers at most `count` bytes:
the loop keeps `read_count ≤ left_read_count` and stops no later than
`left_read_count` reaching `0`. -/
theorem ReadDumpFile_bytes_le (f : SnapFile) (digest : Nat → String)
    (fuel off cnt : Nat) (h : cnt < U64) :
    (ReadDumpFile f digest fuel off cnt).bytesRead ≤ cnt := by
  unfold ReadDumpFile
  by_cases hopen : f.openOk = false
  · simp [hopen]
  · rw [if_neg hopen]
    have hb := readLoop_bytes_le f fuel
      { bytesRead := 0, readCount := if cnt > kMaxCopyBlockSize then kMaxCopyBlockSize else cnt,
        readOffset := off, leftRead := cnt }
      (by simp only; split <;> omega) (by simp only; omega)
    rcases hr : readLoop f fuel
        { bytesRead := 0, readCount := if cnt > kMaxCopyBlockSize then kMaxCopyBlockSize else cnt,
          readOffset := off, leftRead := cnt } with ⟨ex, stf⟩
    rw [hr] at hb
    simp only at hb
    simp only [hr]
    cases ex
    · cases checksumLoop f fuel 0 0 <;> simp only <;> omega
    · simp only; omega
    · simp only; omega
    · simp only; omega

/-- On every `IOError` return of `ReadDumpFile` the checksum out-parameter
is still the empty string the caller initialized it to. -/
theorem ReadDumpFile_err_checksum (f : SnapFile) (digest : Nat → String)
    (fuel off cnt : Nat)
    (h : (ReadDumpFile f digest fuel off cnt).status = RStatus.ioError) :
    (ReadDumpFile f digest fuel off cnt).checksum = "" := by
  unfold ReadDumpFile at h ⊢
  by_cases hopen : f.openOk = false
  · simp [hopen]
  · rw [if_neg hopen] at h ⊢
    rcases hr : readLoop f fuel
        { bytesRead := 0, readCount := if cnt > kMaxCopyBlockSize then kMaxCopyBlockSize else cnt,
          readOffset := off, leftRead := cnt } with ⟨ex, stf⟩
    simp only [hr] at h ⊢
    cases ex
    · cases hcs : checksumLoop f fuel 0 0 <;> simp_all
    · rfl
    · simp_all
    · simp_all

/-! ### Claim theorems -/

/-- C1 (amended): the number of bytes `ReadDumpFile` delivers to its caller
in a single invocation is bounded by `count` — not by `min(count, 1 MiB)`.
The `kMaxCopyBlockSize` constant only caps the size of one `pread`; the
loop keeps going until the full `count` is exhausted or end of file. -/
theorem C1_bytes_delivered_at_most_count (f : SnapFile) (digest : Nat → String)
    (fuel off cnt : Nat) (h : cnt < U64) :
    (ReadDumpFile f digest fuel off cnt).bytesRead ≤ cnt :=
  ReadDumpFile_bytes_le f digest fuel off cnt h

/-- C1 witness: a concrete instance of `C1_bytes_delivered_at_most_count`. -/
theorem C1_bytes_delivered_at_most_count_witness :
    (ReadDumpFile (regFile 5) md5hex 9 0 3).bytesRead ≤ 3 :=
  C1_bytes_delivered_at_most_count (regFile 5) md5hex 9 0 3 (by decide)

/-- C1 (counterexample): a request of `count` = 3 MiB at offset 0 against a
2.5 MiB file delivers all 2 621 440 bytes in the single `ReadDumpFile`
invocation — more than the claimed per-invocation ceiling
`min(count, 1 MiB)` = 1 048 576. -/
theorem C1_one_mib_cap_counterexample :
    (ReadDumpFile (regFile 2621440) md5hex 16 0 3145728).bytesRead = 2621440 ∧
    ¬((ReadDumpFile (regFile 2621440) md5hex 16 0 3145728).bytesRead
        ≤ min 3145728 kMaxCopyBlockSize) := by decide

/-- C2 (amended): on a regular snapshot file, every successful FileReq
response carries the hex MD5 digest of the entire file in `checksum` —
including intermediate chunks.  The read loop always terminates through
`pread` returning `0` (once the requested count is exhausted, `read_count`
has shrunk to `0` and `pread` with a zero count returns `0`), which
triggers the checksum pass; `eof` is set independently, as
`bytes_read != count`. -/
theorem C2_checksum_on_every_success (sz : Nat) (digest : Nat → String)
    (fuel : Nat) (u d fn : String) (sid off cnt : Nat)
    (h1 : cnt < U64) (h2 : off + cnt < U64) (h3 : cnt + 1 ≤ fuel) (h4 : sz + 1 ≤ fuel) :
    HandleFileRsyncRequest
        { getDumpUUIDOk := true, snapshotUuid := u, slotExists := true, dumpFile := regFile sz }
        digest fuel d sid fn off cnt =
      HandlerResult.wrote
        [{ code := RCode.ok, rtype := RType.file, dbName := d, slotId := sid,
           snapshotUuid := u, metaResp := none,
           fileResp := some { filename := fn, offset := off, count := min cnt (sz - off),
                              dataLen := min cnt (sz - off),
                              eofFlag := min cnt (sz - off) != cnt,
                              checksum := digest sz } }] := by
  unfold HandleFileRsyncRequest
  rw [ReadDumpFile_regFile sz digest fuel off cnt h1 h2 h3 h4]
  simp

/-- C2 witness: a concrete instance of `C2_checksum_on_every_success`. -/
theorem C2_checksum_on_every_success_witness :
    HandleFileRsyncRequest
        { getDumpUUIDOk := true, snapshotUuid := "u", slotExists := true, dumpFile := regFile 5 }
        md5hex 9 "d" 0 "f" 0 3 =
      HandlerResult.wrote
        [{ code := RCode.ok, rtype := RType.file, dbName := "d", slotId := 0,
           snapshotUuid := "u", metaResp := none,
           fileResp := some { filename := "f", offset := 0, count := min 3 (5 - 0),
                              dataLen := min 3 (5 - 0), eofFlag := min 3 (5 - 0) != 3,
                              checksum := md5hex 5 } }] :=
  C2_checksum_on_every_success 5 md5hex 9 "u" "d" "f" 0 0 3 (by decide) (by decide) (by decide)
    (by decide)

/-- C2 (counterexample): a successful FileReq for the first 10 bytes of a
100-byte file is an intermediate chunk (`eof == false`, since
`bytes_read == count`), yet its `checksum` field is the non-empty digest of
the whole file — contradicting "checksum non-empty iff eof" and
"intermediate chunks carry an empty checksum". -/
theorem C2_intermediate_chunk_checksum_counterexample :
    HandleFileRsyncRequest
        { getDumpUUIDOk := true, snapshotUuid := "uuid-1", slotExists := true,
          dumpFile := regFile 100 }
        md5hex 12 "db0" 0 "00001.sst" 0 10 =
      HandlerResult.wrote
        [{ code := RCode.ok, rtype := RType.file, dbName := "db0", slotId := 0,
           snapshotUuid := "uuid-1", metaResp := none,
           fileResp := some { filename := "00001.sst", offset := 0, count := 10,
                              dataLen := 10, eofFlag := false, checksum := "md5:100" } }] ∧
    ("md5:100" : String) ≠ "" := by decide

/-- C3: the data compaction filter drops a record iff the meta record for
its user key is absent, or the meta has expired (`ttl ≠ 0 ∧ ttl < now`), or
the data key's version is strictly below the meta's version; in particular
an equal version on a present, unexpired meta is kept. -/
theorem C3_data_filter_drop_iff (now : Int) (mo : Option ListsMetaValue) (k : ListsDataKey) :
    ListsDataFilter now mo k = true ↔
      (mo = none ∨ ∃ m, mo = some m ∧ ((m.ttl ≠ 0 ∧ m.ttl < now) ∨ k.version < m.version)) := by
  cases mo with
  | none => simp [ListsDataFilter]
  | some m =>
    simp only [ListsDataFilter, Option.some.injEq, reduceCtorEq, false_or]
    by_cases httl : m.ttl ≠ 0 ∧ m.ttl < now
    · rw [if_pos httl]
      constructor
      · intro _; exact ⟨m, rfl, Or.inl httl⟩
      · intro _; rfl
    · rw [if_neg httl]
      simp only [decide_eq_true_eq]
      constructor
      · intro hv; exact ⟨m, rfl, Or.inr hv⟩
      · rintro ⟨m2, hm2, hc⟩
        cases hm2
        rcases hc with hc | hc
        · exact absurd hc httl
        · exact hc

/-- C4: the meta compaction filter drops a record iff its stored size is
`0` or its ttl is non-zero and strictly below the current time; the
decision is a pure function of the record value and the clock (the model
takes nothing else). -/
theorem C4_meta_filter_drop_iff (now : Int) (m : ListsMetaValue) :
    ListsMetaFilter now m = true ↔ (m.size = 0 ∨ (m.ttl ≠ 0 ∧ m.ttl < now)) := by
  unfold ListsMetaFilter
  by_cases h1 : m.size = 0
  · simp [h1]
  · simp only [h1, if_false, false_or]
    by_cases h2 : m.ttl ≠ 0 ∧ m.ttl < now <;> simp [h2]

/-- C5 (amended): a MetaReq whose `(db_name, slot_id)` partition is absent
is handled exactly like one arriving during an active bgsave — the server
writes no response frame at all; it never answers a MetaReq with `Err`. -/
theorem C5_meta_req_silent_drop (env : MetaEnv) (d : String) (sid : Nat)
    (h : env.slotExists = false ∨ env.isBgSaving = true) :
    HandleMetaRsyncRequest env d sid = [] := by
  unfold HandleMetaRsyncRequest
  rcases h with h | h <;> simp [h]

/-- C5 witness: a concrete instance of `C5_meta_req_silent_drop`. -/
theorem C5_meta_req_silent_drop_witness :
    HandleMetaRsyncRequest
      { slotExists := true, isBgSaving := true, filenames := [], snapshotUuid := "u" } "d" 1 = [] :=
  C5_meta_req_silent_drop
    { slotExists := true, isBgSaving := true, filenames := [], snapshotUuid := "u" } "d" 1
    (Or.inr rfl)

/-- C5 (counterexample): with the partition absent (and no bgsave running)
the MetaReq handler writes no frame at all, refuting the claim that it
responds with `code = Err` in that case. -/
theorem C5_absent_slot_counterexample :
    HandleMetaRsyncRequest
      { slotExists := false, isBgSaving := false, filenames := ["00001.sst"], snapshotUuid := "u" }
      "db0" 0 = [] := rfl

/-- C6 (code bug): when the partition of a FileReq does not exist (but
`GetDumpUUID` succeeded), the handler writes the `Err` frame and then —
because the `!slot` branch at `rsync_server.cc:220-225` lacks the `return`
its sibling error branches have — falls through to
`slot->bgsave_info()` on the null slot, instead of stopping. -/
theorem C6_missing_return_null_deref :
    HandleFileRsyncRequest
        { getDumpUUIDOk := true, snapshotUuid := "u", slotExists := false, dumpFile := regFile 5 }
        md5hex 9 "db0" 0 "f.sst" 0 3 =
      HandlerResult.nullDeref
        [{ code := RCode.err, rtype := RType.file, dbName := "db0", slotId := 0,
           snapshotUuid := "u", metaResp := none, fileResp := none }] := by decide

/-- C7 (amended): when `ReadDumpFile` fails (`open` or `read` failure), the
FileReq handler writes a single `Err` frame with no `FileResponse` payload
— no data or byte count reaches the replica — and the checksum
out-parameter is untouched; however the `bytes_read` out-parameter keeps
the count of bytes read before the error (see the counterexample). -/
theorem C7_reader_error_err_response (env : FileEnv) (digest : Nat → String)
    (fuel : Nat) (d : String) (sid : Nat) (fn : String) (off cnt : Nat)
    (h1 : env.getDumpUUIDOk = true) (h2 : env.slotExists = true)
    (h3 : (ReadDumpFile env.dumpFile digest fuel off cnt).status = RStatus.ioError) :
    HandleFileRsyncRequest env digest fuel d sid fn off cnt =
      HandlerResult.wrote
        [{ code := RCode.err, rtype := RType.file, dbName := d, slotId := sid,
           snapshotUuid := env.snapshotUuid, metaResp := none, fileResp := none }] ∧
    (ReadDumpFile env.dumpFile digest fuel off cnt).checksum = "" := by
  constructor
  · unfold HandleFileRsyncRequest
    rw [if_neg (by simp [h1]), if_neg (by simp [h2])]
    simp only [h3]
  · exact ReadDumpFile_err_checksum env.dumpFile digest fuel off cnt h3

/-- C7 witness: a concrete instance of `C7_reader_error_err_response`, on a
file whose reads fail from byte offset 10 on. -/
theorem C7_reader_error_err_response_witness :
    (HandleFileRsyncRequest
        { getDumpUUIDOk := true, snapshotUuid := "u", slotExists := true, dumpFile := failFile 10 }
        md5hex 9 "d" 0 "f" 0 20 =
      HandlerResult.wrote
        [{ code := RCode.err, rtype := RType.file, dbName := "d", slotId := 0,
           snapshotUuid := "u", metaResp := none, fileResp := none }]) ∧
    (ReadDumpFile (failFile 10) md5hex 9 0 20).checksum = "" :=
  C7_reader_error_err_response
    { getDumpUUIDOk := true, snapshotUuid := "u", slotExists := true, dumpFile := failFile 10 }
    md5hex 9 "d" 0 "f" 0 20 rfl rfl (by decide)

/-- C7 (counterexample): on a file that yields 10 bytes and then fails,
`ReadDumpFile(offset=0, count=20)` returns `IOError` with the `bytes_read`
out-parameter already advanced to 10 — the bytes read before the error are
reported to the caller through `bytes_read`, not discarded. -/
theorem C7_bytes_before_error_counterexample :
    ReadDumpFile (failFile 10) md5hex 9 0 20 =
      { status := RStatus.ioError, bytesRead := 10, checksum := "" } ∧ (10 : Nat) ≠ 0 := by decide

/-- C8: `UpdateVersion` sets the stored version to
`max(old_version + 1, now)` and hence strictly increases it on every call,
regardless of the clock value; applied to successive calls this gives
strict monotonicity of the stored version. -/
theorem C8_update_version_strict_increase (now : Int) (m : ListsMetaValue) :
    (UpdateVersion now m).version = max (m.version + 1) now ∧
    m.version < (UpdateVersion now m).version := by
  refine ⟨rfl, ?_⟩
  show m.version < max (m.version + 1) now
  omega

/-- C9: `left_read_count` is unsigned, so the guard `left_read_count < 0`
right after the wrapping subtraction is never taken — the `break` is
unreachable for every file oracle, fuel and state, and the loop can only
exit through `pread` returning `0` or `-1` (or the embedding's fuel);
the subtraction itself wraps modulo `2 ^ 64`, e.g. `0 - 1 = 2 ^ 64 - 1`. -/
theorem C9_break_guard_unreachable :
    (∀ (f : SnapFile) (fuel : Nat) (st : LoopSt), (readLoop f fuel st).1 ≠ LoopExit.brkExit) ∧
    usub64 0 1 = U64 - 1 := by
  refine ⟨fun f => readLoop_ne_brk f, ?_⟩
  decide

/-- C10: a frame that parses as an `RsyncRequest` whose type is neither
`kRsyncMeta` nor `kRsyncFile` schedules no task on the worker pool (hence
no response frame is ever produced for it) and `DealMessage` returns `0`,
keeping the connection open and reading. -/
theorem C10_unknown_type_no_task (tag : Nat) :
    DealMessage true (ReqType.other tag) = (0, []) := rfl
